import Mathlib

/-!
Shallow embedding of the PascalObjectDetection classifier core:
`src/SupportVectorMachine.cpp` and `src/Feature.h`.

Conventions of the embedding:
* C++ float/double arithmetic is idealized over the rationals.
* `throw "..."` sites are mapped to the error taxonomy of the design
  document (ValidationError, StateError, IOError, ModelError); the thrown
  message strings are recorded in comments next to each site.
* The bundled solver library (svm.h / svm.cpp, declared via
  SupportVectorMachine.h, neither of which is under src) is modelled from
  the design document where its behavior matters; each such definition
  carries a doc comment starting with "Modelled from the spec:".
-/

/-- cv::Size as used by the code: width (columns) and height (rows). -/
structure CvSize where
  width : Nat
  height : Nat
  deriving DecidableEq

/-- A single channel float cv::Mat: a rows × cols matrix stored as a row
major buffer.  cv::Mat::at performs no bounds check in release builds; an
out of range read is modelled by the default value 0, and no theorem below
relies on the value of such a read in order to establish an in range
claim. -/
structure Mat where
  rows : Nat
  cols : Nat
  data : List ℚ
  deriving DecidableEq

/-- cv::Mat::at<float>(r, c): row major unchecked element access, reading
buffer cell r * cols + c. -/
def Mat.atF (m : Mat) (r c : Nat) : ℚ := m.data.getD (r * m.cols + c) 0

/-- cv::Mat::size(): a cv::Size with width = cols and height = rows. -/
def Mat.size (m : Mat) : CvSize := ⟨m.cols, m.rows⟩

/-- In the translation unit of SupportVectorMachine.cpp a Feature is used as
a cv::Mat (it is passed to cv::Mat operations such as at<float> and
Mat::zeros). -/
abbrev Feature := Mat

/-- struct svm_node of the bundled solver: one sparse (index, value) entry;
index -1 is the end sentinel.  The sentinel value field is never written by
the code (the buffer cell stays default initialized); it is modelled as 0
and never inspected. -/
structure SvmNode where
  index : Int
  value : ℚ
  deriving DecidableEq

/-- Modelled from the spec: struct svm_model of the bundled solver library
(svm.h, not under src).  Per the design document a TrainedModel holds the
support vector sparse encodings SV, the dual coefficients sv_coef and the
bias term(s) rho; the remaining metadata plays no role in the claims. -/
structure SvmModel where
  SV : List (List SvmNode)
  sv_coef : List ℚ
  rho : List ℚ
  deriving DecidableEq

/-- Pointwise dot product of two value lists (zipWith truncates at the
shorter list). -/
def dotList (a b : List ℚ) : ℚ := (List.zipWith (fun x y => x * y) a b).sum

/-- Modelled from the spec: the linear kernel dot product of the bundled
solver over sparse node lists.  Both lists are walked in increasing index
order, matching indices contribute value products, and the walk stops at
the -1 sentinel of either list. -/
def dotSparse : List SvmNode → List SvmNode → ℚ
  | [], _ => 0
  | _ :: _, [] => 0
  | a :: as, b :: bs =>
    if a.index = -1 ∨ b.index = -1 then 0
    else if a.index = b.index then a.value * b.value + dotSparse as bs
    else if a.index < b.index then dotSparse as (b :: bs)
    else dotSparse (a :: as) bs
termination_by xs ys => xs.length + ys.length

/-- Modelled from the spec: svm_predict_values of the bundled solver (not
under src) for a two class linear kernel model: the decision value is the
sum over support vectors s of sv_coef[s] * dot(SV[s], x) minus rho[0]. -/
def svm_predict_values (m : SvmModel) (x : List SvmNode) : ℚ :=
  (List.zipWith (fun c sv => c * dotSparse sv x) m.sv_coef m.SV).sum
    - m.rho.getD 0 0

/-- struct svm_parameter: only the fields relevant to the claims are kept
(the solver is passed through as an explicit function below). -/
structure SvmParameter where
  cost : ℚ
  kernelLinear : Bool
  deriving DecidableEq

/-- The error taxonomy of the design document.  Each `throw "..."` site of
the source is mapped to one of these kinds.  `nullModelCall` is not a
thrown error: it marks the one place (predict) where the source calls into
the solver with a null model handle without any check, which is not a
StateError throw. -/
inductive SvmError where
  | validationError
  | stateError
  | ioError
  | modelError
  | nullModelCall
  deriving DecidableEq

/-- struct svm_problem as filled by train: l vectors, target values y,
row pointers x (modelled as start offsets into the shared _data buffer)
and the shared sparse node buffer itself. -/
structure SvmProblem where
  l : Nat
  y : List ℚ
  xStart : List Nat
  data : List SvmNode
  deriving DecidableEq

/-- The dim + 1 nodes of one feature vector as written by the train loop:
for i < dim, node i has index i and value feature.at<float>(i, 1) — note
the column index 1 used by the source — and the final node carries the
sentinel index -1. -/
def featNodes (f : Mat) (dim : Nat) : List SvmNode :=
  (List.range dim).map (fun i => SvmNode.mk (Int.ofNat i) (f.atF i 1))
    ++ [SvmNode.mk (-1) 0]

/-- The _data buffer written by the outer train loop: the blocks of the
feature vectors k = 0, 1, ..., nVecs - 1 in order, each of dim + 1 nodes.
fset[k] is in bounds because train has already checked
labels.size() == fset.size(). -/
def buildRows (fset : List Mat) (dim : Nat) : Nat → List SvmNode
  | 0 => []
  | k + 1 => buildRows fset dim k ++ featNodes (fset.getD k ⟨0, 0, []⟩) dim

/-- The svm_problem built by train from labels and the feature set: the
descriptor dimension is taken from fset[0] alone (shape.width *
shape.height); y is the label vector; problem.x[k] is the offset
k * (dim + 1) into _data. -/
def svmProblemOf (labels : List ℚ) (fset : List Mat) : SvmProblem :=
  let nVecs := labels.length
  let shape := (fset.getD 0 ⟨0, 0, []⟩).size
  let dim := shape.width * shape.height
  { l := nVecs
    y := labels
    xStart := (List.range nVecs).map (fun k => k * (dim + 1))
    data := buildRows fset dim nVecs }

/-- The classifier state: _model and _data are the two owned resources of
the class.  Modelled from the spec: SupportVectorMachine.h is not under
src; the members _model and _data are initialized to null by both
constructors shown in the cpp, and the descriptor shape member _fVecShape
(read by getWeights, assigned nowhere in the cpp — the assignment in train
is commented out) default initializes to the 0 × 0 cv::Size. -/
structure SupportVectorMachine where
  _model : Option SvmModel
  _data : Option (List SvmNode)
  _fVecShape : CvSize
  deriving DecidableEq

/-- The default constructor: no model, no buffer, 0 × 0 shape. -/
def SupportVectorMachine.init : SupportVectorMachine := ⟨none, none, ⟨0, 0⟩⟩

/-- _deinit: releases the model and the sparse buffer and nulls both
members. -/
def SupportVectorMachine._deinit (svm : SupportVectorMachine) :
    SupportVectorMachine :=
  { svm with _model := none, _data := none }

/-- predict(const Feature &): builds the dim + 1 sparse nodes for the
descriptor — node i has index i and value feature.at<float>(i, 0) — and
returns the decision value of svm_predict_values.  The source performs no
null check on _model here; with a null handle the call into the solver has
no defined result, which is modelled by the distinguished error
`nullModelCall` (it is not a thrown StateError). -/
def SupportVectorMachine.predict (svm : SupportVectorMachine)
    (feature : Mat) : Except SvmError ℚ :=
  match svm._model with
  | none => .error .nullModelCall
  | some m =>
    let dim := feature.size.width * feature.size.height
    let nodes := (List.range dim).map
        (fun i => SvmNode.mk (Int.ofNat i) (feature.atF i 0))
      ++ [SvmNode.mk (-1) 0]
    .ok (svm_predict_values m nodes)

/-- train: throws ("Database size is different from feature set size!",
a ValidationError) when the label count differs from the feature count;
otherwise builds the svm_problem, hands it to the solver (svm_train,
passed here as an explicit function since the solver library is not under
src) and installs the new model and buffer. -/
def SupportVectorMachine.train (solver : SvmProblem → SvmParameter → SvmModel)
    (svm : SupportVectorMachine) (labels : List ℚ) (fset : List Mat)
    (parameter : SvmParameter) : Except SvmError SupportVectorMachine :=
  if labels.length ≠ fset.length then .error .validationError
  else
    let problem := svmProblemOf labels fset
    .ok { svm with
            _model := some (solver problem parameter)
            _data := some problem.data }

/-- getBiasTerm: throws ("Asking for SVM bias term but there is no model.",
a StateError) without a model, else returns _model->rho[0]. -/
def SupportVectorMachine.getBiasTerm (svm : SupportVectorMachine) :
    Except SvmError ℚ :=
  match svm._model with
  | none => .error .stateError
  | some m => .ok (m.rho.getD 0 0)

/-- getWeights: throws ("Asking for SVM weights but there is no model.",
a StateError) without a model; otherwise the source returns
Mat::zeros(_fVecShape.width, _fVecShape.height, CV_32FC2) — the support
vector summation loop is commented out, so the returned template is all
zeros, its row count is _fVecShape.width and its column count is
_fVecShape.height (Mat::zeros takes rows first), and the two channel
CV_32FC2 buffer holds width * height * 2 zero floats. -/
def SupportVectorMachine.getWeights (svm : SupportVectorMachine) :
    Except SvmError Mat :=
  match svm._model with
  | none => .error .stateError
  | some _ =>
    .ok ⟨svm._fVecShape.width, svm._fVecShape.height,
         List.replicate (svm._fVecShape.width * svm._fVecShape.height * 2) 0⟩

/-- The spec's reconstruction of the primal weight vector (design document
section 4.3, matching the commented out loop in getWeights): dimension i of
the weight template is the sum over support vectors s of
coefficient[s] * supportVector[s][i].  Support vectors are given here as
the plain value lists that the sparse encodings represent. -/
def reconstructedWeight (cs : List ℚ) (vs : List (List ℚ)) (i : Nat) : ℚ :=
  (List.zipWith (fun c v => c * v.getD i 0) cs vs).sum

/-- Modelled from the spec: the serialized form written by
svm_save_model_fp of the bundled solver (not under src).  The design
document only fixes that the full TrainedModel — support vector sparse
encodings, dual coefficients and bias terms — is written to the stream in
a stable form; the stream is modelled as a token list of integers and
rationals. -/
inductive Tok where
  | ti : Int → Tok
  | tq : ℚ → Tok
  deriving DecidableEq

/-- Serialization of a sparse node list: index and value tokens in order. -/
def encNodes : List SvmNode → List Tok
  | [] => []
  | n :: rest => Tok.ti n.index :: Tok.tq n.value :: encNodes rest

/-- Serialization of the support vector array: each node list is preceded
by its length. -/
def encNodeLists : List (List SvmNode) → List Tok
  | [] => []
  | l :: rest => Tok.ti (Int.ofNat l.length) :: encNodes l ++ encNodeLists rest

/-- Serialization of a rational list. -/
def encRats : List ℚ → List Tok
  | [] => []
  | q :: rest => Tok.tq q :: encRats rest

/-- Modelled from the spec: svm_save_model_fp (bundled solver, not under
src) writes the support vector count and encodings, the dual coefficient
vector and the rho vector, each length prefixed. -/
def svm_save_model_fp (m : SvmModel) : List Tok :=
  Tok.ti (Int.ofNat m.SV.length) :: encNodeLists m.SV
    ++ Tok.ti (Int.ofNat m.sv_coef.length) :: encRats m.sv_coef
    ++ Tok.ti (Int.ofNat m.rho.length) :: encRats m.rho

/-- Count driven decoder for node lists. -/
def decNodes : Nat → List Tok → Option (List SvmNode × List Tok)
  | 0, ts => some ([], ts)
  | k + 1, Tok.ti i :: Tok.tq v :: ts =>
    (decNodes k ts).map (fun p => (SvmNode.mk i v :: p.1, p.2))
  | _ + 1, _ => none

/-- Count driven decoder for the support vector array. -/
def decNodeLists : Nat → List Tok → Option (List (List SvmNode) × List Tok)
  | 0, ts => some ([], ts)
  | k + 1, Tok.ti len :: ts =>
    (decNodes len.toNat ts).bind (fun p =>
      (decNodeLists k p.2).map (fun q => (p.1 :: q.1, q.2)))
  | _ + 1, _ => none

/-- Count driven decoder for a rational list. -/
def decRats : Nat → List Tok → Option (List ℚ × List Tok)
  | 0, ts => some ([], ts)
  | k + 1, Tok.tq q :: ts =>
    (decRats k ts).map (fun p => (q :: p.1, p.2))
  | _ + 1, _ => none

/-- Modelled from the spec: svm_load_model_fp (bundled solver, not under
src) parses the stream back into a model, returning null (none) when the
stream does not decode. -/
def svm_load_model_fp (ts : List Tok) : Option SvmModel :=
  match ts with
  | Tok.ti nsv :: ts1 =>
    (decNodeLists nsv.toNat ts1).bind (fun p =>
      match p.2 with
      | Tok.ti nc :: ts2 =>
        (decRats nc.toNat ts2).bind (fun q =>
          match q.2 with
          | Tok.ti nr :: ts3 =>
            (decRats nr.toNat ts3).map (fun r => SvmModel.mk p.1 q.1 r.1)
          | _ => none)
      | _ => none)
  | _ => none

/-- save(FILE *): throws ("No model to be saved", a StateError) without a
model, else writes the model with svm_save_model_fp.  (A write failure of
the stream itself — the svm_save_model_fp != 0 branch — is an IOError and
is outside this stream model, which has no failing writes.) -/
def SupportVectorMachine.save (svm : SupportVectorMachine) :
    Except SvmError (List Tok) :=
  match svm._model with
  | none => .error .stateError
  | some m => .ok (svm_save_model_fp m)

/-- load(FILE *): first _deinit (releasing any held model and buffer),
then svm_load_model_fp; a null result throws ("Failed to load SVM model",
a ModelError), leaving the object in the deinitialized state.  The result
is the object state after the call together with the thrown error, if
any. -/
def SupportVectorMachine.loadFp (svm : SupportVectorMachine)
    (stream : List Tok) : SupportVectorMachine × Option SvmError :=
  let svm2 := svm._deinit
  match svm_load_model_fp stream with
  | none => (svm2, some .modelError)
  | some m => ({ svm2 with _model := some m }, none)

/-- load(const std::string &): fopen; a null FILE throws ("Failed to open
file ... for reading", an IOError) before anything else — in particular
before _deinit, so the held model survives this failure; otherwise
delegates to load(FILE *).  The file system is modelled as a partial map
from names to streams. -/
def SupportVectorMachine.loadFile (svm : SupportVectorMachine)
    (fs : String → Option (List Tok)) (filename : String) :
    SupportVectorMachine × Option SvmError :=
  match fs filename with
  | none => (svm, some .ioError)
  | some stream => svm.loadFp stream

/-- The filename constructor: initializes _model and _data to null and
immediately calls load(modelFName).  The error component records whether
construction threw. -/
def SupportVectorMachine.mkFromFile (fs : String → Option (List Tok))
    (modelFName : String) : SupportVectorMachine × Option SvmError :=
  SupportVectorMachine.init.loadFile fs modelFName

/-! ### Ownership event model (for the resource discipline claim)

The source manipulates two owned resources: the svm_model handle _model
and the sparse buffer _data.  Each classifier operation is mapped to the
list of alloc and free events it performs, in source order; the slot
semantics below accepts a trace only if every free releases exactly the
held resource and every alloc finds its slot empty — so acceptance of a
trace is precisely the claim that at most one model and one buffer are
held at a time and that each is released before its replacement. -/

/-- An allocation or release of one of the two owned resources, tagged
with the identity of the allocation. -/
inductive Ev where
  | allocM : Nat → Ev
  | freeM : Nat → Ev
  | allocB : Nat → Ev
  | freeB : Nat → Ev
  deriving DecidableEq

/-- The abstract ownership state: the identity of the held model and
buffer, if any, plus a fresh identity counter. -/
structure OwnSt where
  model : Option Nat
  buf : Option Nat
  next : Nat
  deriving DecidableEq

/-- The events of _deinit, in source order: free the model (line 19), then
free the buffer (line 20). -/
def deinitEvs (s : OwnSt) : List Ev :=
  (match s.model with | some m => [Ev.freeM m] | none => [])
    ++ (match s.buf with | some b => [Ev.freeB b] | none => [])

/-- The state after _deinit. -/
def deinitSt (s : OwnSt) : OwnSt := ⟨none, none, s.next⟩

/-- One classifier operation, as far as resource ownership is concerned. -/
inductive ClassifierOp where
  | trainOk : ClassifierOp
  | trainBadSizes : ClassifierOp
  | loadOk : ClassifierOp
  | loadBad : ClassifierOp
  deriving DecidableEq

/-- The event trace and successor state of one operation, in source order:
a successful train frees the old buffer (line 70), allocates the new one
(line 89), frees the old model (line 118) and installs the solver result
(line 119); a train failing its size validation throws at line 32 before
touching any resource; load runs _deinit first (line 205) and allocates
the decoded model only on success. -/
def opRun : ClassifierOp → OwnSt → List Ev × OwnSt
  | .trainOk, s =>
    ((match s.buf with | some b => [Ev.freeB b] | none => [])
        ++ [Ev.allocB s.next]
        ++ (match s.model with | some m => [Ev.freeM m] | none => [])
        ++ [Ev.allocM (s.next + 1)],
      ⟨some (s.next + 1), some s.next, s.next + 2⟩)
  | .trainBadSizes, s => ([], s)
  | .loadOk, s => (deinitEvs s ++ [Ev.allocM s.next],
      ⟨some s.next, none, s.next + 1⟩)
  | .loadBad, s => (deinitEvs s, deinitSt s)

/-- The concatenated trace and final state of a sequence of operations. -/
def runOps : List ClassifierOp → OwnSt → List Ev × OwnSt
  | [], s => ([], s)
  | op :: ops, s =>
    let r := opRun op s
    let r2 := runOps ops r.2
    (r.1 ++ r2.1, r2.2)

/-- Slot semantics of one event: an alloc requires its slot to be empty, a
free must name exactly the held identity.  Failure (none) marks a double
hold, a double free or a free of a foreign resource. -/
def evStep (e : Ev) (st : Option Nat × Option Nat) :
    Option (Option Nat × Option Nat) :=
  match e, st with
  | .allocM n, (none, b) => some (some n, b)
  | .freeM n, (some m, b) => if n = m then some (none, b) else none
  | .allocB n, (m, none) => some (m, some n)
  | .freeB n, (m, some b) => if n = b then some (m, none) else none
  | _, _ => none

/-- Running a whole event trace through the slot semantics. -/
def evRun : List Ev → (Option Nat × Option Nat) → Option (Option Nat × Option Nat)
  | [], st => some st
  | e :: es, st =>
    match evStep e st with
    | none => none
    | some st2 => evRun es st2

/-! ### The sliding window evaluator (for the dense equivalence claim) -/

/-- Modelled from the spec: predictSlidingWindow is entirely commented out
in the source (SupportVectorMachine.cpp lines 239 to 287); the design
document section 4.4 fixes its contract.  The response of the dense path
at window position (y, x) of a descriptor map F (indexed channel, row,
column) with a weight template w of chans channels, wh rows and ww
columns: per channel cross correlation of the template with the map,
summed pointwise over the channels, minus the bias at every cell. -/
def slidingWindowResponse (w F : Nat → Nat → Nat → ℚ)
    (chans wh ww : Nat) (bias : ℚ) (y x : Nat) : ℚ :=
  (∑ c ∈ Finset.range chans, ∑ dy ∈ Finset.range wh,
      ∑ dx ∈ Finset.range ww, w c dy dx * F c (y + dy) (x + dx))
    - bias

/-- Modelled from the spec: cropping the window at position (y, x) of the
dense descriptor map F into its own descriptor — the chans × wh × ww block
flattened channel major, then row major, into the column vector Mat that
predict consumes. -/
def cropWindow (F : Nat → Nat → Nat → ℚ) (chans wh ww y x : Nat) : Mat :=
  ⟨chans * (wh * ww), 1,
    (List.range (chans * (wh * ww))).map (fun i =>
      F (i / (wh * ww)) (y + i % (wh * ww) / ww) (x + i % (wh * ww) % ww))⟩

/-- The sparse encoding of a plain value list as the solver sees a dense
descriptor: nodes carry consecutive indices from k upward and the value
list entries, terminated by the -1 sentinel. -/
def denseNodes (k : Nat) : List ℚ → List SvmNode
  | [] => [SvmNode.mk (-1) 0]
  | v :: vsTail => SvmNode.mk (Int.ofNat k) v :: denseNodes (k + 1) vsTail

/-! ### Concrete instances used by counterexamples and witnesses -/

/-- A concrete 1 × 1 descriptor. -/
def matOne : Mat := ⟨1, 1, [1]⟩

/-- A concrete 1 row × 2 column descriptor with elements 5 and 7. -/
def matRow57 : Mat := ⟨1, 2, [5, 7]⟩

/-- A concrete 2 row × 2 column descriptor. -/
def matSquare : Mat := ⟨2, 2, [1, 2, 3, 4]⟩

/-- A concrete model with one support vector of one dimension (value 3,
followed by the sentinel), dual coefficient 2 and bias 1. -/
def modelEx : SvmModel := ⟨[[⟨0, 3⟩, ⟨-1, 0⟩]], [2], [1]⟩

/-- A solver stub returning modelEx whatever the problem: the claims it
serves quantify over the solver output anyway. -/
def solverEx : SvmProblem → SvmParameter → SvmModel := fun _ _ => modelEx

/-- Default solver parameters (linear kernel, C = 1). -/
def paramEx : SvmParameter := ⟨1, true⟩

/-- A concrete descriptor map for the sliding window witness. -/
def mapEx : Nat → Nat → Nat → ℚ := fun c yy xx => (c : ℚ) + 2 * (yy : ℚ) + 3 * (xx : ℚ)

/-- A stream that does not decode into a model (it does not start with a
count token). -/
def badStream : List Tok := [Tok.tq 0]

/-- A model file system for the constructor claims: one good file, one
malformed file, everything else absent. -/
def fsEx : String → Option (List Tok) :=
  fun nm =>
    if nm = "good.model" then some (svm_save_model_fp modelEx)
    else if nm = "bad.model" then some badStream
    else none

/-- HOGFeatureExtractor (src/Feature.h): the configuration fields of the
class.  The constructor body is not under src; only the fields and the
inline scaleFactor are declared in the header. -/
structure HOGFeatureExtractor where
  _nAngularBins : Nat
  _unsignedGradients : Bool
  _cellSize : Nat
  deriving DecidableEq

/-- scaleFactor (src/Feature.h line 94): 1.0 / double(_cellSize),
idealized over the rationals. -/
def HOGFeatureExtractor.scaleFactor (e : HOGFeatureExtractor) : ℚ :=
  1 / (e._cellSize : ℚ)

/-- Dual coefficients of the concrete linear model of the sliding window
witness. -/
def csEx : List ℚ := [2]

/-- Support vector value lists of the concrete linear model of the sliding
window witness (one support vector of dimension 2). -/
def vsEx : List (List ℚ) := [[1, 5]]

/-- The concrete model of the sliding window witness: dense sparse
encodings of vsEx, coefficients csEx, bias 1. -/
def modelC1 : SvmModel := ⟨vsEx.map (denseNodes 0), csEx, [1]⟩

/-- The weight template reconstructed from the witness model, flattened
channel major then row major (1 channel, 1 row, 2 columns). -/
def tmplEx : Nat → Nat → Nat → ℚ :=
  fun c dy dx => reconstructedWeight csEx vsEx (c * (1 * 2) + (dy * 2 + dx))

/-! ## Helper lemmas -/

theorem getD_map_range {α : Type} (f : Nat → α) (d : α) {n i : Nat}
    (h : i < n) : ((List.range n).map f).getD i d = f i := by
  rw [List.getD_eq_getElem?_getD, List.getElem?_map, List.getElem?_range h]
  rfl

/-! ## Claim theorems -/

/-- C3 counterexample: on the never trained, never loaded classifier,
predict does not fail with StateError (the source predict has no model
check; it hands the null model handle straight to the solver). -/
theorem claim_C3_counterexample :
    SupportVectorMachine.init._model = none ∧
      SupportVectorMachine.predict SupportVectorMachine.init matOne ≠
        Except.error SvmError.stateError := by
  refine ⟨rfl, ?_⟩
  intro h
  have h2 : (Except.error SvmError.nullModelCall : Except SvmError ℚ) =
      Except.error SvmError.stateError := h
  simp at h2

/-- C3 amended: on a classifier holding no model, getWeights, getBiasTerm
and save each fail with StateError, while predict performs no state check
and instead calls the solver with the null model handle (modelled as the
distinguished nullModelCall outcome, which is not a StateError). -/
theorem claim_C3_amended (svm : SupportVectorMachine) (x : Mat)
    (h : svm._model = none) :
    svm.getWeights = Except.error SvmError.stateError ∧
      svm.getBiasTerm = Except.error SvmError.stateError ∧
      svm.save = Except.error SvmError.stateError ∧
      svm.predict x = Except.error SvmError.nullModelCall := by
  refine ⟨?_, ?_, ?_, ?_⟩ <;>
    simp [SupportVectorMachine.getWeights, SupportVectorMachine.getBiasTerm,
      SupportVectorMachine.save, SupportVectorMachine.predict, h]

/-- C3 witness: the amended statement instantiated on the freshly
constructed classifier. -/
theorem claim_C3_witness :
    SupportVectorMachine.init._model = none ∧
      (SupportVectorMachine.init.getWeights = Except.error SvmError.stateError ∧
        SupportVectorMachine.init.getBiasTerm = Except.error SvmError.stateError ∧
        SupportVectorMachine.init.save = Except.error SvmError.stateError ∧
        SupportVectorMachine.init.predict matOne =
          Except.error SvmError.nullModelCall) :=
  ⟨rfl, claim_C3_amended SupportVectorMachine.init matOne rfl⟩

/-- C4 counterexample: a batch of two descriptors of different shapes with
a matching label count is accepted by train (it returns a trained
classifier, not a ValidationError): the source only validates the sizes of
the two containers (line 32) and reads every descriptor according to the
shape of fset[0]. -/
theorem claim_C4_counterexample :
    matOne.size ≠ matSquare.size ∧
      (SupportVectorMachine.train solverEx SupportVectorMachine.init [1, 1]
        [matOne, matSquare] paramEx).isOk = true := by
  exact ⟨by decide, rfl⟩

/-- C4 amended: train fails with ValidationError exactly on a label count
differing from the batch size, before the solver is invoked (the outcome
is this error for every solver); no uniform shape validation is
performed. -/
theorem claim_C4_amended (solver : SvmProblem → SvmParameter → SvmModel)
    (svm : SupportVectorMachine) (labels : List ℚ) (fset : List Mat)
    (parameter : SvmParameter) (h : labels.length ≠ fset.length) :
    SupportVectorMachine.train solver svm labels fset parameter =
      Except.error SvmError.validationError := by
  simp [SupportVectorMachine.train, h]

/-- C4 witness: one label against an empty batch is rejected with
ValidationError. -/
theorem claim_C4_witness :
    ([(1 : ℚ)].length ≠ ([] : List Mat).length) ∧
      SupportVectorMachine.train solverEx SupportVectorMachine.init [1] []
        paramEx = Except.error SvmError.validationError :=
  ⟨by decide, claim_C4_amended solverEx SupportVectorMachine.init [1] []
    paramEx (by decide)⟩

/-- C8: scaleFactor of a HistogramOfGradients extractor configured with
cell size c is exactly 1 / c, and (for a nonzero cell size) is the exact
multiplicative inverse of the cell size. -/
theorem claim_C8 (e : HOGFeatureExtractor) :
    e.scaleFactor = 1 / (e._cellSize : ℚ) ∧
      (e._cellSize ≠ 0 → e.scaleFactor * (e._cellSize : ℚ) = 1) := by
  refine ⟨rfl, fun h => ?_⟩
  have hq : (e._cellSize : ℚ) ≠ 0 := by
    exact_mod_cast h
  field_simp [HOGFeatureExtractor.scaleFactor]

/-- C8 witness: the default cell size 6. -/
theorem claim_C8_witness :
    HOGFeatureExtractor.scaleFactor ⟨18, true, 6⟩ = 1 / ((6 : Nat) : ℚ) ∧
      ((6 : Nat) ≠ 0 → HOGFeatureExtractor.scaleFactor ⟨18, true, 6⟩ * ((6 : Nat) : ℚ) = 1) :=
  claim_C8 ⟨18, true, 6⟩

/-- C2: evaluating the code on a concrete training batch.  Training one
1 × 2 descriptor with one label succeeds with a solver producing modelEx
(one support vector value 3, coefficient 2), but getWeights on the trained
classifier returns the 0 × 0 all zero template: the support vector
summation is commented out in the source and the template shape comes from
_fVecShape, which train never assigns (that assignment is commented out
too) — while the spec reconstruction has entry 2 * 3 = 6 at dimension 0
and the descriptor shape 2 × 1. -/
theorem claim_C2 :
    Except.map SupportVectorMachine.getWeights
        (SupportVectorMachine.train solverEx SupportVectorMachine.init [1]
          [matRow57] paramEx) =
      Except.ok (Except.ok (Mat.mk 0 0 [])) ∧
      (Mat.mk 0 0 []).size ≠ matRow57.size ∧
      reconstructedWeight [2] [[3]] 0 = 6 := by
  refine ⟨rfl, by decide, ?_⟩
  norm_num [reconstructedWeight]

/-- C5: evaluating the sparse exchange representation built by train at a
concrete input.  For one label and one 1 × 2 descriptor with elements
5 and 7: the target vector and the row offsets and the sentinel are as the
claim states, but node 0 of the descriptor block carries the value 7 —
the source reads feature.at<float>(i, 1), the cell of row i and column 1 —
whereas the 0-th element of the descriptor is 5 (which is what predict,
reading at<float>(i, 0), would encode). -/
theorem claim_C5 :
    (svmProblemOf [1] [matRow57]).y = [1] ∧
      (svmProblemOf [1] [matRow57]).xStart = [0] ∧
      ((svmProblemOf [1] [matRow57]).data.getD 0 ⟨-1, 0⟩).index = 0 ∧
      ((svmProblemOf [1] [matRow57]).data.getD 0 ⟨-1, 0⟩).value = 7 ∧
      matRow57.data.getD 0 0 = 5 ∧
      ((svmProblemOf [1] [matRow57]).data.getD 2 ⟨0, 0⟩).index = -1 := by
  refine ⟨rfl, rfl, rfl, rfl, rfl, rfl⟩

theorem decNodes_enc (l : List SvmNode) (rest : List Tok) :
    decNodes l.length (encNodes l ++ rest) = some (l, rest) := by
  induction l with
  | nil => rfl
  | cons n t ih => simp [encNodes, decNodes, ih]

theorem decNodeLists_enc (ls : List (List SvmNode)) (rest : List Tok) :
    decNodeLists ls.length (encNodeLists ls ++ rest) = some (ls, rest) := by
  induction ls with
  | nil => rfl
  | cons l t ih =>
    simp [encNodeLists, decNodeLists, List.append_assoc, decNodes_enc, ih]

theorem decRats_enc (l : List ℚ) (rest : List Tok) :
    decRats l.length (encRats l ++ rest) = some (l, rest) := by
  induction l with
  | nil => rfl
  | cons q t ih => simp [encRats, decRats, ih]

theorem decRats_enc_nil (l : List ℚ) :
    decRats l.length (encRats l) = some (l, []) := by
  have h := decRats_enc l []
  simpa using h

/-- Decoding inverts encoding: the serialized stream of a model parses
back into exactly that model. -/
theorem load_save_roundtrip (m : SvmModel) :
    svm_load_model_fp (svm_save_model_fp m) = some m := by
  obtain ⟨sv, cs, rh⟩ := m
  simp [svm_save_model_fp, svm_load_model_fp, List.append_assoc,
    decNodeLists_enc, decRats_enc, decRats_enc_nil]

/-- C6: save followed by load of a trained model into a fresh classifier
restores exactly the saved model, and the restored classifier returns the
very same predict score as the original on every descriptor. -/
theorem claim_C6 (svm : SupportVectorMachine) (m : SvmModel) (x : Mat)
    (h : svm._model = some m) :
    svm.save = Except.ok (svm_save_model_fp m) ∧
      SupportVectorMachine.init.loadFp (svm_save_model_fp m) =
        (SupportVectorMachine.mk (some m) none ⟨0, 0⟩, none) ∧
      (SupportVectorMachine.init.loadFp (svm_save_model_fp m)).1.predict x =
        svm.predict x := by
  have hload : SupportVectorMachine.init.loadFp (svm_save_model_fp m) =
      (SupportVectorMachine.mk (some m) none ⟨0, 0⟩, none) := by
    simp [SupportVectorMachine.loadFp, SupportVectorMachine._deinit,
      SupportVectorMachine.init, load_save_roundtrip]
  refine ⟨by simp [SupportVectorMachine.save, h], hload, ?_⟩
  rw [hload]
  simp [SupportVectorMachine.predict, h]

/-- C6 witness: a concrete trained classifier and descriptor. -/
theorem claim_C6_witness :
    (SupportVectorMachine.mk (some modelEx) none ⟨0, 0⟩)._model = some modelEx ∧
      ((SupportVectorMachine.mk (some modelEx) none ⟨0, 0⟩).save =
          Except.ok (svm_save_model_fp modelEx) ∧
        SupportVectorMachine.init.loadFp (svm_save_model_fp modelEx) =
          (SupportVectorMachine.mk (some modelEx) none ⟨0, 0⟩, none) ∧
        (SupportVectorMachine.init.loadFp
            (svm_save_model_fp modelEx)).1.predict matOne =
          (SupportVectorMachine.mk (some modelEx) none ⟨0, 0⟩).predict matOne) :=
  ⟨rfl, claim_C6 (SupportVectorMachine.mk (some modelEx) none ⟨0, 0⟩) modelEx
    matOne rfl⟩

theorem evRun_append (a b : List Ev) (st : Option Nat × Option Nat) :
    evRun (a ++ b) st =
      match evRun a st with
      | none => none
      | some st2 => evRun b st2 := by
  induction a generalizing st with
  | nil => rfl
  | cons e t ih =>
    cases hstep : evStep e st with
    | none => simp [evRun, hstep]
    | some st2 => simp [evRun, hstep, ih]

theorem evRun_opRun (op : ClassifierOp) (s : OwnSt) :
    evRun (opRun op s).1 (s.model, s.buf) =
      some ((opRun op s).2.model, (opRun op s).2.buf) := by
  cases op <;> cases hm : s.model <;> cases hb : s.buf <;>
    simp [opRun, deinitEvs, deinitSt, evRun, evStep, hm, hb]

theorem runOps_inv (ops : List ClassifierOp) (s : OwnSt) :
    evRun (runOps ops s).1 (s.model, s.buf) =
      some ((runOps ops s).2.model, (runOps ops s).2.buf) := by
  induction ops generalizing s with
  | nil => rfl
  | cons op t ih =>
    simp only [runOps]
    rw [evRun_append, evRun_opRun]
    exact ih (opRun op s).2

theorem evRun_deinit (s : OwnSt) :
    evRun (deinitEvs s) (s.model, s.buf) = some (none, none) := by
  cases hm : s.model <;> cases hb : s.buf <;>
    simp [deinitEvs, evRun, evStep, hm, hb]

/-- C7: for every sequence of train and load operations on a freshly
constructed classifier, the full event trace — ending with the destructor
— is accepted by the single slot ownership semantics and ends with both
slots empty: every free releases exactly the currently held resource,
every allocation finds its slot empty (so at most one model and one sparse
buffer are ever held, and each is fully released before its replacement is
installed), and destruction releases both. -/
theorem claim_C7 (ops : List ClassifierOp) :
    evRun ((runOps ops ⟨none, none, 0⟩).1
        ++ deinitEvs (runOps ops ⟨none, none, 0⟩).2) (none, none) =
      some (none, none) := by
  rw [evRun_append]
  have h1 : evRun (runOps ops ⟨none, none, 0⟩).1
      ((none : Option Nat), (none : Option Nat)) =
      some ((runOps ops ⟨none, none, 0⟩).2.model,
        (runOps ops ⟨none, none, 0⟩).2.buf) :=
    runOps_inv ops ⟨none, none, 0⟩
  rw [h1]
  exact evRun_deinit _

/-- C9: whenever the stream does not decode into a model, load(FILE *)
leaves the classifier exactly in the deinitialized state (it ran _deinit
before attempting to decode) and throws ModelError; every model requiring
operation on the resulting object behaves as on a never trained
instance. -/
theorem claim_C9 (svm : SupportVectorMachine) (stream : List Tok) (x : Mat)
    (h : svm_load_model_fp stream = none) :
    svm.loadFp stream = (svm._deinit, some SvmError.modelError) ∧
      (svm.loadFp stream).1._model = none ∧
      (svm.loadFp stream).1._data = none ∧
      (svm.loadFp stream).1.getBiasTerm = Except.error SvmError.stateError ∧
      (svm.loadFp stream).1.getWeights = Except.error SvmError.stateError ∧
      (svm.loadFp stream).1.save = Except.error SvmError.stateError ∧
      (svm.loadFp stream).1.predict x = Except.error SvmError.nullModelCall := by
  have h1 : svm.loadFp stream = (svm._deinit, some SvmError.modelError) := by
    simp [SupportVectorMachine.loadFp, h]
  refine ⟨h1, ?_, ?_, ?_, ?_, ?_, ?_⟩ <;>
    simp [h1, SupportVectorMachine._deinit, SupportVectorMachine.getBiasTerm,
      SupportVectorMachine.getWeights, SupportVectorMachine.save,
      SupportVectorMachine.predict]

/-- C9 witness: a classifier holding a model, hit by a malformed stream,
ends up without model or buffer and with every model requiring operation
failing as on a fresh instance. -/
theorem claim_C9_witness :
    svm_load_model_fp badStream = none ∧
      ((SupportVectorMachine.mk (some modelEx) (some []) ⟨1, 1⟩).loadFp
          badStream =
        ((SupportVectorMachine.mk (some modelEx) (some []) ⟨1, 1⟩)._deinit,
          some SvmError.modelError) ∧
      ((SupportVectorMachine.mk (some modelEx) (some []) ⟨1, 1⟩).loadFp
          badStream).1._model = none ∧
      ((SupportVectorMachine.mk (some modelEx) (some []) ⟨1, 1⟩).loadFp
          badStream).1._data = none ∧
      ((SupportVectorMachine.mk (some modelEx) (some []) ⟨1, 1⟩).loadFp
          badStream).1.getBiasTerm = Except.error SvmError.stateError ∧
      ((SupportVectorMachine.mk (some modelEx) (some []) ⟨1, 1⟩).loadFp
          badStream).1.getWeights = Except.error SvmError.stateError ∧
      ((SupportVectorMachine.mk (some modelEx) (some []) ⟨1, 1⟩).loadFp
          badStream).1.save = Except.error SvmError.stateError ∧
      ((SupportVectorMachine.mk (some modelEx) (some []) ⟨1, 1⟩).loadFp
          badStream).1.predict matOne = Except.error SvmError.nullModelCall) :=
  ⟨rfl, claim_C9 (SupportVectorMachine.mk (some modelEx) (some []) ⟨1, 1⟩)
    badStream matOne rfl⟩

/-- C10: the filename constructor performs load immediately: construction
without a thrown error leaves a model present; an unopenable file fails
construction with IOError (leaving the member initialized null state); a
file whose contents do not decode fails construction with ModelError. -/
theorem claim_C10 (fs : String → Option (List Tok)) (nm : String) :
    ((SupportVectorMachine.mkFromFile fs nm).2 = none →
        ((SupportVectorMachine.mkFromFile fs nm).1)._model.isSome = true) ∧
      (fs nm = none →
        SupportVectorMachine.mkFromFile fs nm =
          (SupportVectorMachine.init, some SvmError.ioError)) ∧
      (∀ stream : List Tok, fs nm = some stream →
        svm_load_model_fp stream = none →
        (SupportVectorMachine.mkFromFile fs nm).2 =
          some SvmError.modelError) := by
  refine ⟨?_, ?_, ?_⟩
  · intro h2
    cases hfs : fs nm with
    | none =>
      rw [SupportVectorMachine.mkFromFile, SupportVectorMachine.loadFile,
        hfs] at h2
      simp at h2
    | some stream =>
      rw [SupportVectorMachine.mkFromFile, SupportVectorMachine.loadFile, hfs]
      rw [SupportVectorMachine.mkFromFile, SupportVectorMachine.loadFile,
        hfs] at h2
      cases hdec : svm_load_model_fp stream with
      | none => simp [SupportVectorMachine.loadFp, hdec] at h2
      | some m => simp [SupportVectorMachine.loadFp, hdec]
  · intro hfs
    simp [SupportVectorMachine.mkFromFile, SupportVectorMachine.loadFile, hfs]
  · intro stream hfs hdec
    simp [SupportVectorMachine.mkFromFile, SupportVectorMachine.loadFile,
      hfs, SupportVectorMachine.loadFp, hdec]

/-- C10 witness: the three constructor scenarios on the concrete model
file system — a good file yields a present model, an absent file fails
with IOError, a malformed file fails with ModelError. -/
theorem claim_C10_witness :
    ((SupportVectorMachine.mkFromFile fsEx "good.model").1)._model.isSome =
        true ∧
      SupportVectorMachine.mkFromFile fsEx "absent.model" =
        (SupportVectorMachine.init, some SvmError.ioError) ∧
      (SupportVectorMachine.mkFromFile fsEx "bad.model").2 =
        some SvmError.modelError :=
  ⟨(claim_C10 fsEx "good.model").1 (by decide),
    (claim_C10 fsEx "absent.model").2.1 (by decide),
    (claim_C10 fsEx "bad.model").2.2 badStream (by decide) rfl⟩

theorem map_getD_range (l : List ℚ) :
    (List.range l.length).map (fun i => l.getD i 0) = l := by
  induction l with
  | nil => rfl
  | cons v t ih =>
    simp only [List.length_cons, List.range_succ_eq_map, List.map_cons,
      List.map_map, List.getD_cons_zero]
    have h2 : List.map ((fun i => (v :: t).getD i 0) ∘ Nat.succ)
        (List.range t.length) =
        List.map (fun i => t.getD i 0) (List.range t.length) := by
      apply List.map_congr_left
      intro a _
      simp [Function.comp]
    rw [h2, ih]

theorem denseNodes_eq (xs : List ℚ) : ∀ k : Nat,
    denseNodes k xs = (List.range xs.length).map
      (fun i => SvmNode.mk (Int.ofNat (k + i)) (xs.getD i 0))
      ++ [SvmNode.mk (-1) 0] := by
  induction xs with
  | nil => intro k; rfl
  | cons v t ih =>
    intro k
    simp only [denseNodes, ih (k + 1), List.length_cons,
      List.range_succ_eq_map, List.map_cons, List.map_map, List.cons_append,
      List.getD_cons_zero]
    have h2 : List.map ((fun i => SvmNode.mk (Int.ofNat (k + i))
          ((v :: t).getD i 0)) ∘ Nat.succ) (List.range t.length) =
        List.map (fun i => SvmNode.mk (Int.ofNat (k + 1 + i)) (t.getD i 0))
          (List.range t.length) := by
      apply List.map_congr_left
      intro a _
      have h3 : k + (a + 1) = k + 1 + a := by omega
      simp [Function.comp, List.getD_cons_succ, h3]
    rw [h2]
    simp

theorem dotSparse_dense (a : List ℚ) : ∀ (k : Nat) (b : List ℚ),
    dotSparse (denseNodes k a) (denseNodes k b) = dotList a b := by
  induction a with
  | nil =>
    intro k b
    cases b with
    | nil => simp [denseNodes, dotSparse, dotList]
    | cons w bs => simp [denseNodes, dotSparse, dotList]
  | cons v as ih =>
    intro k b
    cases b with
    | nil => simp [denseNodes, dotSparse, dotList]
    | cons w bs =>
      have hk0 : (0 : Int) ≤ Int.ofNat k := Int.ofNat_nonneg k
      have hk : (Int.ofNat k) ≠ -1 := by omega
      simp [denseNodes, dotSparse, hk, ih (k + 1) bs, dotList]

theorem zipWith_sum {α β : Type} (f : α → β → ℚ) (da : α) (db : β) :
    ∀ (a : List α) (b : List β), a.length = b.length →
      (List.zipWith f a b).sum =
        ∑ s ∈ Finset.range a.length, f (a.getD s da) (b.getD s db) := by
  intro a
  induction a with
  | nil =>
    intro b h
    simp
  | cons v t ih =>
    intro b h
    cases b with
    | nil => simp at h
    | cons w u =>
      simp only [List.zipWith_cons_cons, List.sum_cons, List.length_cons]
      rw [Finset.sum_range_succ']
      simp only [List.getD_cons_succ, List.getD_cons_zero]
      rw [ih u (by simpa using h)]
      ring

theorem dotList_eq_sum (a b : List ℚ) (h : a.length = b.length) :
    dotList a b = ∑ i ∈ Finset.range a.length, a.getD i 0 * b.getD i 0 :=
  zipWith_sum (fun p q => p * q) 0 0 a b h

theorem sum_range_add (f : Nat → ℚ) (m n : Nat) :
    ∑ i ∈ Finset.range (m + n), f i =
      (∑ i ∈ Finset.range m, f i) + ∑ i ∈ Finset.range n, f (m + i) := by
  induction n with
  | zero => simp
  | succ t ih =>
    rw [Nat.add_succ, Finset.sum_range_succ, Finset.sum_range_succ, ih]
    ring

theorem sum_range_mul (f : Nat → ℚ) (a bnum : Nat) :
    ∑ i ∈ Finset.range (a * bnum), f i =
      ∑ j ∈ Finset.range a, ∑ k ∈ Finset.range bnum, f (j * bnum + k) := by
  induction a with
  | zero => simp
  | succ t ih =>
    rw [Nat.succ_mul, sum_range_add, ih, Finset.sum_range_succ]

theorem flat_div (j k bnum : Nat) (h : k < bnum) :
    (j * bnum + k) / bnum = j := by
  have hb : 0 < bnum := by omega
  rw [add_comm, mul_comm, Nat.add_mul_div_left _ _ hb,
    Nat.div_eq_of_lt h, zero_add]

theorem flat_mod (j k bnum : Nat) (h : k < bnum) :
    (j * bnum + k) % bnum = k := by
  rw [add_comm, mul_comm, Nat.add_mul_mod_self_left, Nat.mod_eq_of_lt h]

/-- C1: sliding window equivalence.  For every linear model given by dense
support vector encodings with coefficients and bias — so that the primal
weight template reconstructed per the spec (getWeights) flattens channel
major, row major to reconstructedWeight — and every dense descriptor map,
the spec contract of the commented out predictSlidingWindow (per channel
cross correlation of the template, summed pointwise, bias subtracted from
every cell) at any single window position equals the score that the source
predict returns on the descriptor cropped to that window. -/
theorem claim_C1 (cs : List ℚ) (vs : List (List ℚ)) (bias : ℚ)
    (F : Nat → Nat → Nat → ℚ) (chans wh ww y x : Nat)
    (hcv : cs.length = vs.length)
    (hlen : ∀ v ∈ vs, v.length = chans * (wh * ww)) :
    SupportVectorMachine.predict
        (SupportVectorMachine.mk
          (some (SvmModel.mk (vs.map (denseNodes 0)) cs [bias])) none ⟨0, 0⟩)
        (cropWindow F chans wh ww y x) =
      Except.ok (slidingWindowResponse
        (fun c dy dx =>
          reconstructedWeight cs vs (c * (wh * ww) + (dy * ww + dx)))
        F chans wh ww bias y x) := by
  have hXdata : (cropWindow F chans wh ww y x).data.length =
      chans * (wh * ww) := by
    simp [cropWindow]
  -- the node list predict builds for the crop is the dense encoding of
  -- the crop buffer
  have hnodes : (List.range ((cropWindow F chans wh ww y x).size.width *
        (cropWindow F chans wh ww y x).size.height)).map
        (fun i => SvmNode.mk (Int.ofNat i)
          ((cropWindow F chans wh ww y x).atF i 0))
        ++ [SvmNode.mk (-1) 0] =
      denseNodes 0 (cropWindow F chans wh ww y x).data := by
    rw [denseNodes_eq]
    have hdim : (cropWindow F chans wh ww y x).size.width *
        (cropWindow F chans wh ww y x).size.height =
        (cropWindow F chans wh ww y x).data.length := by
      simp [Mat.size, cropWindow]
    rw [hdim]
    have h2 : List.map (fun i => SvmNode.mk (Int.ofNat i)
          ((cropWindow F chans wh ww y x).atF i 0))
          (List.range (cropWindow F chans wh ww y x).data.length) =
        List.map (fun i => SvmNode.mk (Int.ofNat (0 + i))
          ((cropWindow F chans wh ww y x).data.getD i 0))
          (List.range (cropWindow F chans wh ww y x).data.length) := by
      apply List.map_congr_left
      intro i _
      simp [Mat.atF, cropWindow]
    rw [h2]
  have hpred : SupportVectorMachine.predict
      (SupportVectorMachine.mk
        (some (SvmModel.mk (vs.map (denseNodes 0)) cs [bias])) none ⟨0, 0⟩)
      (cropWindow F chans wh ww y x) =
      Except.ok (svm_predict_values
        (SvmModel.mk (vs.map (denseNodes 0)) cs [bias])
        (denseNodes 0 (cropWindow F chans wh ww y x).data)) := by
    show Except.ok (svm_predict_values
        (SvmModel.mk (vs.map (denseNodes 0)) cs [bias])
        ((List.range ((cropWindow F chans wh ww y x).size.width *
            (cropWindow F chans wh ww y x).size.height)).map
          (fun i => SvmNode.mk (Int.ofNat i)
            ((cropWindow F chans wh ww y x).atF i 0))
          ++ [SvmNode.mk (-1) 0])) = _
    rw [hnodes]
  rw [hpred]
  congr 1
  show (List.zipWith (fun c sv => c * dotSparse sv
        (denseNodes 0 (cropWindow F chans wh ww y x).data)) cs
      (vs.map (denseNodes 0))).sum - ([bias].getD 0 0) = _
  rw [List.zipWith_map_right]
  simp only [dotSparse_dense, List.getD_cons_zero]
  rw [zipWith_sum (fun c v => c * dotList v
      (cropWindow F chans wh ww y x).data) 0 [] cs vs hcv]
  have hsum1 : ∀ s ∈ Finset.range cs.length,
      cs.getD s 0 * dotList (vs.getD s [])
          (cropWindow F chans wh ww y x).data =
        ∑ i ∈ Finset.range (chans * (wh * ww)), cs.getD s 0 *
          ((vs.getD s []).getD i 0 *
            (cropWindow F chans wh ww y x).data.getD i 0) := by
    intro s hs
    have hslt : s < vs.length := by
      rw [← hcv]
      exact Finset.mem_range.mp hs
    have hvlen : (vs.getD s []).length = chans * (wh * ww) := by
      rw [List.getD_eq_getElem _ _ hslt]
      exact hlen _ (List.getElem_mem hslt)
    rw [dotList_eq_sum _ _ (by rw [hvlen, hXdata]), hvlen, Finset.mul_sum]
  rw [Finset.sum_congr rfl hsum1, Finset.sum_comm]
  have hsum2 : ∀ i ∈ Finset.range (chans * (wh * ww)),
      (∑ s ∈ Finset.range cs.length,
        cs.getD s 0 * ((vs.getD s []).getD i 0 *
          (cropWindow F chans wh ww y x).data.getD i 0)) =
      reconstructedWeight cs vs i *
        (cropWindow F chans wh ww y x).data.getD i 0 := by
    intro i _
    rw [reconstructedWeight,
      zipWith_sum (fun c v => c * v.getD i 0) 0 [] cs vs hcv,
      Finset.sum_mul]
    apply Finset.sum_congr rfl
    intro s _
    ring
  rw [Finset.sum_congr rfl hsum2]
  have hsum3 : ∀ i ∈ Finset.range (chans * (wh * ww)),
      reconstructedWeight cs vs i *
          (cropWindow F chans wh ww y x).data.getD i 0 =
        reconstructedWeight cs vs i *
          F (i / (wh * ww)) (y + i % (wh * ww) / ww) (x + i % (wh * ww) % ww) := by
    intro i hi
    have hg : (cropWindow F chans wh ww y x).data.getD i 0 =
        F (i / (wh * ww)) (y + i % (wh * ww) / ww)
          (x + i % (wh * ww) % ww) := by
      show ((List.range (chans * (wh * ww))).map (fun i2 =>
          F (i2 / (wh * ww)) (y + i2 % (wh * ww) / ww)
            (x + i2 % (wh * ww) % ww))).getD i 0 = _
      exact getD_map_range _ _ (Finset.mem_range.mp hi)
    rw [hg]
  rw [Finset.sum_congr rfl hsum3]
  show _ = (∑ c ∈ Finset.range chans, ∑ dy ∈ Finset.range wh,
      ∑ dx ∈ Finset.range ww,
        reconstructedWeight cs vs (c * (wh * ww) + (dy * ww + dx)) *
          F c (y + dy) (x + dx)) - bias
  congr 1
  rw [sum_range_mul]
  apply Finset.sum_congr rfl
  intro c _
  have hinner : ∀ r ∈ Finset.range (wh * ww),
      reconstructedWeight cs vs (c * (wh * ww) + r) *
          F ((c * (wh * ww) + r) / (wh * ww))
            (y + (c * (wh * ww) + r) % (wh * ww) / ww)
            (x + (c * (wh * ww) + r) % (wh * ww) % ww) =
        reconstructedWeight cs vs (c * (wh * ww) + r) *
          F c (y + r / ww) (x + r % ww) := by
    intro r hr
    rw [flat_div c r (wh * ww) (Finset.mem_range.mp hr),
      flat_mod c r (wh * ww) (Finset.mem_range.mp hr)]
  rw [Finset.sum_congr rfl hinner, sum_range_mul]
  apply Finset.sum_congr rfl
  intro dy hdy
  apply Finset.sum_congr rfl
  intro dx hdx
  rw [flat_div dy dx ww (Finset.mem_range.mp hdx),
    flat_mod dy dx ww (Finset.mem_range.mp hdx)]

/-- C1 witness: the equivalence instantiated on a concrete one channel,
1 × 2 template model and a concrete descriptor map at window position
(0, 0). -/
theorem claim_C1_witness :
    SupportVectorMachine.predict
        (SupportVectorMachine.mk (some modelC1) none ⟨0, 0⟩)
        (cropWindow mapEx 1 1 2 0 0) =
      Except.ok (slidingWindowResponse tmplEx mapEx 1 1 2 1 0 0) :=
  claim_C1 csEx vsEx 1 mapEx 1 1 2 0 0 (by decide) (by decide)
